import Mathlib

/-!
Shallow embedding of `src/paynow_component_docs_mcp_server/server.py`:
a thin MCP adapter exposing one remote documentation-search HTTP endpoint
as a tool, a prompt and the two listing operations.

Python values that cross the JSON boundary are modelled by `JValue`;
the remote HTTP world is an oracle `Remote` mapping the issued request to
either a raised request-level exception or an HTTP response.  Effects that
the claims observe (session construction, issued requests) are recorded in
a `CallTrace` returned alongside each result.  Raising is modelled with
`Except`.
-/

/-- A JSON-ish dynamic value, as Python passes it through `dict[str, Any]`. -/
inductive JValue where
  | str (s : String)
  | num (n : Int)
  | bool (b : Bool)
  | null
deriving DecidableEq

/-- First-match lookup in an argument mapping, as Python `dict` access. -/
def lookupArg : List (String × JValue) → String → Option JValue
  | [], _ => none
  | (k, v) :: rest, key => if k = key then some v else lookupArg rest key

/-- `mcp.types` JSON-RPC error code `INVALID_PARAMS`. -/
def INVALID_PARAMS : Int := -32602

/-- `mcp.types` JSON-RPC error code `INTERNAL_ERROR`. -/
def INTERNAL_ERROR : Int := -32603

/-- `mcp.types.ErrorData`: a protocol error code plus message. -/
structure ErrorData where
  code : Int
  message : String
deriving DecidableEq

/-- `mcp.shared.exceptions.McpError`, carrying one `ErrorData`. -/
structure McpError where
  error : ErrorData
deriving DecidableEq

/-- Python `str(e)` on an `McpError`: its constructor passes
`error.message` to `Exception.__init__`, so `str` returns the message. -/
def McpError.pyStr (e : McpError) : String := e.error.message

/-- The fixed remote endpoint URL (`server.py`, line 23). -/
def PAYNOW_COMPONENT_DOCS_MCP_SERVER_API : String :=
  "https://mcp.owlting.com/paynow-component-docs/get-paynow-component-documentation"

/-- A `requests.Session`: the part the program observes is the adapter
mount table, an association of URL scheme keys to `max_retries` budgets. -/
structure Session where
  adapters : List (String × Nat)
deriving DecidableEq

/-- `requests.Session()`: a fresh session mounts default adapters for the
two schemes, each with the library default of 0 retries. -/
def Session.new : Session :=
  { adapters := [("https://", 0), ("http://", 0)] }

/-- `session.mount(key, HTTPAdapter(max_retries=r))`: replaces or adds the
adapter registered under `key`. -/
def Session.mount (s : Session) (key : String) (retries : Nat) : Session :=
  { adapters := (key, retries) :: s.adapters.filter (fun p => p.1 ≠ key) }

/-- The retry budget the session applies to a URL: among mounted keys that
are a prefix of the URL, the longest one wins (as `Session.get_adapter`
iterates keys sorted by length, longest first); `none` when no adapter
matches (requests raises `InvalidSchema` there — unreachable here). -/
def Session.getRetries (s : Session) (url : String) : Option Nat :=
  let ms := s.adapters.filter (fun p => p.1.data.isPrefixOf url.data)
  (ms.foldl
    (fun best p =>
      match best with
      | none => some p
      | some q => if q.1.length < p.1.length then some p else some q)
    none).map (fun p => p.2)

/-- An HTTP GET request as issued by `session.get` in
`search_paynow_component_documentation`, together with the retry budget
the issuing session would apply to its URL. -/
structure HttpRequest where
  url : String
  params : List (String × JValue)
  timeout : Nat
  maxRetries : Option Nat
deriving DecidableEq

/-- An HTTP response: status code and raw text body. -/
structure HttpResponse where
  status : Nat
  body : String
deriving DecidableEq

/-- An exception raised by `session.get` itself (before any response):
connection failure, timeout, or anything else. -/
inductive RequestExn where
  | connectionError (msg : String)
  | timeout (msg : String)
  | other (msg : String)
deriving DecidableEq

/-- The remote HTTP world: a deterministic oracle assigning to each issued
request either a raised request-level exception or a response. -/
def Remote : Type := HttpRequest → Except RequestExn HttpResponse

/-- What can reach the `except Exception` clause of
`search_paynow_component_documentation`: a request-level exception, or the
`HTTPError` that `resp.raise_for_status()` raises on a 4xx/5xx status. -/
inductive RemoteFailure where
  | requestExn (e : RequestExn)
  | httpStatus (status : Nat) (body : String)
deriving DecidableEq

/-- Python `repr` text of a request-level exception (environment model of
the `requests` exception classes). -/
def RequestExn.reprStr : RequestExn → String
  | .connectionError m => "ConnectionError(" ++ m ++ ")"
  | .timeout m => "ConnectTimeout(" ++ m ++ ")"
  | .other m => m

/-- Python `repr` text of the failure caught by the adapter, the `e!r` of
`server.py` line 49. -/
def RemoteFailure.reprStr : RemoteFailure → String
  | .requestExn e => e.reprStr
  | .httpStatus s _ =>
      "HTTPError(" ++ toString s ++ " Error for url: "
        ++ PAYNOW_COMPONENT_DOCS_MCP_SERVER_API ++ ")"

/-- The `McpError` built at `server.py` lines 46-51: internal error code,
message embedding the original failure text. -/
def mkInternal (f : RemoteFailure) : McpError :=
  { error :=
      { code := INTERNAL_ERROR
        message := "Failed to search documentation: " ++ f.reprStr } }

/-- Effects one handler invocation performs, recorded for the claims:
how many `requests.Session()` objects it constructed and which HTTP
requests it issued. -/
structure CallTrace where
  sessionsCreated : Nat
  requests : List HttpRequest
deriving DecidableEq

/-- The empty trace: nothing constructed, nothing issued. -/
def CallTrace.empty : CallTrace := { sessionsCreated := 0, requests := [] }

/-- The session built inside `search_paynow_component_documentation`
(lines 35-36): a fresh `requests.Session()` with an
`HTTPAdapter(max_retries=3)` mounted on the `"http://"` scheme. -/
def searchSession : Session := Session.new.mount "http://" 3

/-- The single GET request `search_paynow_component_documentation` issues
(lines 37-42): fixed URL, `query` and `lang=en` parameters, timeout 30,
and the retry budget `searchSession` applies to that URL. -/
def searchRequest (query : JValue) : HttpRequest :=
  { url := PAYNOW_COMPONENT_DOCS_MCP_SERVER_API
    params := [("query", query), ("lang", JValue.str "en")]
    timeout := 30
    maxRetries := searchSession.getRetries PAYNOW_COMPONENT_DOCS_MCP_SERVER_API }

/-- The trace of one `search_paynow_component_documentation` call: it
constructs one fresh session and issues one request. -/
def searchTrace (query : JValue) : CallTrace :=
  { sessionsCreated := 1, requests := [searchRequest query] }

/-- `search_paynow_component_documentation` (lines 32-51).  The query is a
`JValue` because Python does not enforce the `str` annotation: the prompt
path passes `arguments["query"]` unchecked.  `resp.raise_for_status()`
raises exactly on statuses in [400, 600); any exception is re-wrapped into
an internal `McpError`. -/
def search_paynow_component_documentation (remote : Remote) (query : JValue) :
    Except McpError String × CallTrace :=
  match remote (searchRequest query) with
  | .error e => (.error (mkInternal (.requestExn e)), searchTrace query)
  | .ok resp =>
      if 400 ≤ resp.status ∧ resp.status < 600 then
        (.error (mkInternal (.httpStatus resp.status resp.body)), searchTrace query)
      else
        (.ok resp.body, searchTrace query)

/-- The validated tool arguments (`SearchArgs`, lines 28-30). -/
structure SearchArgs where
  query : String
deriving DecidableEq

/-- Pydantic validation of `SearchArgs(**args)`: the field `query` is
required and must be a string (pydantic v2 coerces no other JSON type to
`str` and imposes no minimum length); extra keys are ignored.  On failure
the result is the validation failure message. -/
def SearchArgs.validate (args : List (String × JValue)) : Except String SearchArgs :=
  match lookupArg args "query" with
  | some (.str s) => .ok { query := s }
  | some _ =>
      .error "1 validation error for SearchArgs: query: Input should be a valid string"
  | none =>
      .error "1 validation error for SearchArgs: query: Field required"

/-- `mcp.types.TextContent`. -/
structure TextContent where
  type : String
  text : String
deriving DecidableEq

/-- `mcp.types.PromptMessage`. -/
structure PromptMessage where
  role : String
  content : TextContent
deriving DecidableEq

/-- `mcp.types.GetPromptResult`. -/
structure GetPromptResult where
  description : String
  messages : List PromptMessage
deriving DecidableEq

/-- The `call_tool` handler (lines 84-94).  `arguments or {}` turns a
missing mapping into the empty one; a pydantic `ValidationError` (a
`ValueError`) becomes an invalid-params `McpError`; otherwise the remote
search runs and its single text result is returned.  The `name` parameter
is accepted and ignored, as in the source. -/
def call_tool (remote : Remote) (name : String)
    (arguments : Option (List (String × JValue))) :
    Except McpError (List TextContent) × CallTrace :=
  match SearchArgs.validate (arguments.getD []) with
  | .error msg =>
      (.error { error := { code := INVALID_PARAMS, message := msg } }, CallTrace.empty)
  | .ok args =>
      match search_paynow_component_documentation remote (.str args.query) with
      | (.error e, tr) => (.error e, tr)
      | (.ok result, tr) => (.ok [{ type := "text", text := result }], tr)

/-- The invalid-params error raised by `get_prompt` when `query` is absent. -/
def queryRequired : McpError :=
  { error := { code := INVALID_PARAMS, message := "Query is required" } }

/-- The `get_prompt` handler (lines 96-112).  The guard
`not arguments or "query" not in arguments` fires exactly when the mapping
is `None`, empty, or lacks the key `query` (an empty dict lacks it too, so
the falsiness test adds no extra case); the value found under `query` is
passed to the remote search with no further check; a failing search is
caught and converted into a successful prompt result.  The `name`
parameter is accepted and ignored, as in the source. -/
def get_prompt (remote : Remote) (name : String)
    (arguments : Option (List (String × JValue))) :
    Except McpError GetPromptResult × CallTrace :=
  match arguments with
  | none => (.error queryRequired, CallTrace.empty)
  | some args =>
      match lookupArg args "query" with
      | none => (.error queryRequired, CallTrace.empty)
      | some q =>
          match search_paynow_component_documentation remote q with
          | (.error e, tr) =>
              (.ok { description := "Search failed"
                     messages := [{ role := "user"
                                    content := { type := "text", text := e.pyStr } }] },
               tr)
          | (.ok result, tr) =>
              (.ok { description := "Search results"
                     messages := [{ role := "user"
                                    content := { type := "text", text := result } }] },
               tr)

/-- One property of a pydantic-generated JSON schema: a named field with a
JSON type. -/
structure PropertySchema where
  name : String
  type : String
deriving DecidableEq

/-- The shape of `SearchArgs.model_json_schema()` that the tool descriptor
exposes: an object schema with named typed properties and a required list. -/
structure JsonSchema where
  title : String
  type : String
  properties : List PropertySchema
  required : List String
deriving DecidableEq

/-- `SearchArgs.model_json_schema()`: one string property `query`,
required. -/
def SearchArgs.model_json_schema : JsonSchema :=
  { title := "SearchArgs"
    type := "object"
    properties := [{ name := "query", type := "string" }]
    required := ["query"] }

/-- `mcp.types.Tool` descriptor. -/
structure Tool where
  name : String
  description : String
  inputSchema : JsonSchema
deriving DecidableEq

/-- `mcp.types.PromptArgument`. -/
structure PromptArgument where
  name : String
  description : String
  required : Bool
deriving DecidableEq

/-- `mcp.types.Prompt` descriptor. -/
structure Prompt where
  name : String
  description : String
  arguments : List PromptArgument
deriving DecidableEq

/-- The `list_tools` handler (lines 58-66): a constant, total function —
it never fails and returns the one tool descriptor. -/
def list_tools : List Tool :=
  [{ name := "search_paynow_component_documentation"
     description := "Search PayNow Component documentation. Any non-English input will be auto-translated to English before populating the query."
     inputSchema := SearchArgs.model_json_schema }]

/-- The `list_prompts` handler (lines 68-82): constant and total. -/
def list_prompts : List Prompt :=
  [{ name := "search_paynow_component_documentation"
     description := "Search PayNow Component documentation and return matching sections"
     arguments := [{ name := "query"
                     description := "Search query in English. Any non-English input will be auto-translated to English before filling this argument."
                     required := true }] }]

/-- The `query` value `get_prompt` looks up, over the optional mapping. -/
def promptQueryArg (arguments : Option (List (String × JValue))) : Option JValue :=
  lookupArg (arguments.getD []) "query"

/-- How `get_prompt` converts a remote-search outcome into its result:
failure is caught into a successful "Search failed" result whose message
text is the stringified error; success becomes "Search results". -/
def promptOfSearch :
    Except McpError String × CallTrace → Except McpError GetPromptResult × CallTrace
  | (.error e, tr) =>
      (.ok { description := "Search failed"
             messages := [{ role := "user"
                            content := { type := "text", text := e.pyStr } }] },
       tr)
  | (.ok result, tr) =>
      (.ok { description := "Search results"
             messages := [{ role := "user"
                            content := { type := "text", text := result } }] },
       tr)

/-- The failure, if any, that the remote world inflicts on a request: a
request-level exception, or a response whose status `raise_for_status`
rejects.  `none` means the search succeeds. -/
def remoteFails (remote : Remote) (req : HttpRequest) : Option RemoteFailure :=
  match remote req with
  | .error e => some (.requestExn e)
  | .ok resp =>
      if 400 ≤ resp.status ∧ resp.status < 600 then
        some (.httpStatus resp.status resp.body)
      else
        none

/-- A remote world that always answers 200 with a fixed body. -/
def okRemote : Remote :=
  fun _ => .ok { status := 200, body := "Refund policy: ..." }

/-- A remote world whose every request raises a connection error. -/
def connFailRemote : Remote :=
  fun _ => .error (.connectionError "boom")

/-- A remote world that always answers HTTP 500. -/
def status500Remote : Remote :=
  fun _ => .ok { status := 500, body := "oops" }

/-- The two results of invoking the tool twice with the same inputs. -/
def invoke_tool_twice (remote : Remote) (name : String)
    (arguments : Option (List (String × JValue))) :
    (Except McpError (List TextContent)) × (Except McpError (List TextContent)) :=
  ((call_tool remote name arguments).1, (call_tool remote name arguments).1)

/-- Helper: every remote-search invocation, whatever the remote outcome,
produces the same trace: one fresh session, one issued request. -/
theorem search_trace_eq (remote : Remote) (q : JValue) :
    (search_paynow_component_documentation remote q).2 = searchTrace q := by
  unfold search_paynow_component_documentation
  cases remote (searchRequest q) with
  | error e => rfl
  | ok resp =>
      dsimp only
      split <;> rfl

/-- C8: `list_tools` is a total constant returning exactly one descriptor
named `search_paynow_component_documentation` whose input schema declares
a single required string field `query`. -/
theorem list_tools_single_descriptor :
    list_tools.length = 1 ∧
    list_tools.map Tool.name = ["search_paynow_component_documentation"] ∧
    list_tools.map (fun t => t.inputSchema.required) = [["query"]] ∧
    list_tools.map (fun t => t.inputSchema.properties) =
      [[{ name := "query", type := "string" }]] := by
  exact ⟨rfl, rfl, rfl, rfl⟩

/-- C10: neither `call_tool` nor `get_prompt` depends on its `name`
parameter — invoking either with two different names and the same
arguments gives identical results and traces. -/
theorem handlers_ignore_name (remote : Remote) (n1 n2 : String)
    (arguments : Option (List (String × JValue))) :
    call_tool remote n1 arguments = call_tool remote n2 arguments ∧
    get_prompt remote n1 arguments = get_prompt remote n2 arguments :=
  ⟨rfl, rfl⟩

/-- C9: invoking the tool twice with the same query against the same
deterministic remote yields identical output both times — the adapter
threads no state between calls (its result is a function of the remote
world and the arguments alone). -/
theorem tool_call_idempotent (remote : Remote) (n : String)
    (arguments : Option (List (String × JValue))) :
    (invoke_tool_twice remote n arguments).1 =
      (invoke_tool_twice remote n arguments).2 ∧
    (invoke_tool_twice remote n arguments).1 = (call_tool remote n arguments).1 :=
  ⟨rfl, rfl⟩

/-- C6 counterexample: the retry adapter `HTTPAdapter(max_retries=3)` is
mounted on the `"http://"` scheme, but the fixed API URL uses `https://`,
so the retry budget the session applies to the request actually issued is
the library default 0, not 3. -/
theorem search_retry_budget_not_applied :
    searchSession.adapters = [("http://", 3), ("https://", 0)] ∧
    (searchRequest (JValue.str "x")).maxRetries = some 0 ∧
    ¬ (searchRequest (JValue.str "x")).maxRetries = some 3 := by
  refine ⟨rfl, rfl, ?_⟩
  intro h
  simp [searchRequest, searchSession, Session.new, Session.mount,
    Session.getRetries, PAYNOW_COMPONENT_DOCS_MCP_SERVER_API] at h

/-- C6 (amended): every remote-search invocation issues exactly one GET
against the fixed URL with parameters `query` and `lang=en` and timeout
30; a retry budget of 3 is mounted, but only for the `"http://"` scheme,
so the effective retry budget of the issued (`https://`) request is the
default 0. -/
theorem search_request_shape (remote : Remote) (q : JValue) :
    (search_paynow_component_documentation remote q).2.requests = [searchRequest q] ∧
    (searchRequest q).url = PAYNOW_COMPONENT_DOCS_MCP_SERVER_API ∧
    (searchRequest q).params = [("query", q), ("lang", JValue.str "en")] ∧
    (searchRequest q).timeout = 30 ∧
    ("http://", 3) ∈ searchSession.adapters ∧
    (searchRequest q).maxRetries = some 0 := by
  refine ⟨?_, rfl, rfl, rfl, ?_, rfl⟩
  · rw [search_trace_eq]
    rfl
  · simp [searchSession, Session.new, Session.mount]

/-- C7 counterexample: one concrete tool-path invocation of the remote
search constructs a fresh `requests.Session` (one per call), refuting
"constructed once at process start and reused; no invocation constructs a
fresh session". -/
theorem search_constructs_fresh_session :
    (search_paynow_component_documentation okRemote (JValue.str "q")).2.sessionsCreated = 1 ∧
    ¬ (search_paynow_component_documentation okRemote (JValue.str "q")).2.sessionsCreated = 0 := by
  rw [search_trace_eq]
  exact ⟨rfl, by simp [searchTrace]⟩

/-- C7 (amended): every invocation of the remote-search function
constructs exactly one fresh session of its own; two invocations thus
construct two sessions, and none is held across invocations. -/
theorem search_session_per_invocation (remote : Remote) (q1 q2 : JValue) :
    (search_paynow_component_documentation remote q1).2.sessionsCreated = 1 ∧
    (search_paynow_component_documentation remote q1).2.sessionsCreated +
      (search_paynow_component_documentation remote q2).2.sessionsCreated = 2 := by
  rw [search_trace_eq, search_trace_eq]
  exact ⟨rfl, rfl⟩

/-- C1 counterexample: the mapping `{"query": ""}` deserializes
successfully (pydantic imposes no minimum length on `query`), and the
invocation proceeds to the remote call with the empty query — no
InvalidParameters error is raised — refuting the non-emptiness half of
the claim. -/
theorem call_tool_empty_query_accepted :
    SearchArgs.validate [("query", JValue.str "")] = .ok { query := "" } ∧
    (call_tool okRemote "search_paynow_component_documentation"
        (some [("query", JValue.str "")])).2.requests = [searchRequest (JValue.str "")] ∧
    (call_tool okRemote "search_paynow_component_documentation"
        (some [("query", JValue.str "")])).1 =
      .ok [{ type := "text", text := "Refund policy: ..." }] :=
  ⟨rfl, rfl, rfl⟩

/-- C1 (amended): the tool invocation proceeds to the remote call exactly
when the mapping deserializes into a query object with a string `query`
value — the empty string included; on validation failure it raises an
InvalidParameters error carrying the validation failure message and issues
no request. -/
theorem call_tool_validation_gate (remote : Remote) (n : String)
    (arguments : Option (List (String × JValue))) :
    match SearchArgs.validate (arguments.getD []) with
    | .error msg =>
        call_tool remote n arguments =
          (.error { error := { code := INVALID_PARAMS, message := msg } },
           CallTrace.empty)
    | .ok sa =>
        (call_tool remote n arguments).2.requests =
          [searchRequest (JValue.str sa.query)] := by
  unfold call_tool
  cases hv : SearchArgs.validate (arguments.getD []) with
  | error msg => rfl
  | ok sa =>
      dsimp only
      have htr := search_trace_eq remote (JValue.str sa.query)
      rcases hs : search_paynow_component_documentation remote (JValue.str sa.query)
        with ⟨res, tr⟩
      rw [hs] at htr
      cases res <;> simpa using congrArg CallTrace.requests htr

/-- C4: the prompt invocation raises InvalidParameters "Query is required"
exactly when the mapping lacks the key `query`; when the key is present
its value is handed to the remote search unchanged — no type or
non-emptiness check — and the handler never raises that error. -/
theorem get_prompt_presence_check_only (remote : Remote) (n : String)
    (arguments : Option (List (String × JValue))) :
    match promptQueryArg arguments with
    | none =>
        get_prompt remote n arguments = (.error queryRequired, CallTrace.empty)
    | some v =>
        get_prompt remote n arguments =
          promptOfSearch (search_paynow_component_documentation remote v) ∧
        (get_prompt remote n arguments).1 ≠ .error queryRequired := by
  cases arguments with
  | none => rfl
  | some args =>
      unfold promptQueryArg get_prompt
      dsimp only [Option.getD]
      cases hq : lookupArg args "query" with
      | none => rfl
      | some v =>
          dsimp only
          rcases hs : search_paynow_component_documentation remote v with ⟨res, tr⟩
          cases res with
          | error e => exact ⟨rfl, by simp⟩
          | ok result => exact ⟨rfl, by simp⟩

/-- C2: when the mapping contains key `query` and the remote search fails
(raises an `McpError`), `get_prompt` does not raise: it returns a normal
prompt result with description "Search failed" and a single message whose
text is the stringified error. -/
theorem get_prompt_catches_search_failure (remote : Remote) (n : String)
    (args : List (String × JValue)) (q : JValue) (e : McpError)
    (hq : lookupArg args "query" = some q)
    (hf : (search_paynow_component_documentation remote q).1 = .error e) :
    (get_prompt remote n (some args)).1 =
      .ok { description := "Search failed"
            messages := [{ role := "user"
                           content := { type := "text", text := e.pyStr } }] } := by
  unfold get_prompt
  dsimp only
  rw [hq]
  dsimp only
  rcases hs : search_paynow_component_documentation remote q with ⟨res, tr⟩
  rw [hs] at hf
  dsimp only at hf
  subst hf
  rfl

/-- The internal error a connection failure "boom" produces. -/
def connFailureError : McpError :=
  mkInternal (.requestExn (.connectionError "boom"))

/-- Witness for C2 at a concrete failing remote. -/
theorem get_prompt_catches_search_failure_witness :
    (get_prompt connFailRemote "search_paynow_component_documentation"
        (some [("query", JValue.str "x")])).1 =
      .ok { description := "Search failed"
            messages := [{ role := "user"
                           content := { type := "text"
                                        text := connFailureError.pyStr } }] } :=
  get_prompt_catches_search_failure connFailRemote
    "search_paynow_component_documentation"
    [("query", JValue.str "x")] (JValue.str "x") connFailureError rfl rfl

/-- C3: whenever the remote call fails for any reason — request-level
exception or non-success HTTP status — the tool invocation raises a single
Internal error whose message embeds the original failure text, with no
finer-grained classification (every failure kind yields the same code and
message shape). -/
theorem call_tool_internal_error_on_failure (remote : Remote) (n : String)
    (q : String) (f : RemoteFailure)
    (hf : remoteFails remote (searchRequest (JValue.str q)) = some f) :
    (call_tool remote n (some [("query", JValue.str q)])).1 =
      .error { error :=
        { code := INTERNAL_ERROR
          message := "Failed to search documentation: " ++ f.reprStr } } := by
  have hv : SearchArgs.validate [("query", JValue.str q)] = .ok { query := q } := rfl
  unfold call_tool
  dsimp only [Option.getD]
  rw [hv]
  dsimp only
  unfold search_paynow_component_documentation
  unfold remoteFails at hf
  cases hr : remote (searchRequest (JValue.str q)) with
  | error e =>
      rw [hr] at hf
      dsimp only at hf
      cases hf
      rfl
  | ok resp =>
      rw [hr] at hf
      dsimp only at hf
      by_cases hc : 400 ≤ resp.status ∧ resp.status < 600
      · rw [if_pos hc] at hf
        cases hf
        dsimp only
        rw [if_pos hc]
        rfl
      · rw [if_neg hc] at hf
        cases hf

/-- The failure an HTTP 500 response with body "oops" produces. -/
def status500Failure : RemoteFailure := .httpStatus 500 "oops"

/-- Witness for C3 at a concrete remote answering HTTP 500. -/
theorem call_tool_internal_error_on_failure_witness :
    (call_tool status500Remote "search_paynow_component_documentation"
        (some [("query", JValue.str "x")])).1 =
      .error { error :=
        { code := INTERNAL_ERROR
          message := "Failed to search documentation: "
            ++ status500Failure.reprStr } } :=
  call_tool_internal_error_on_failure status500Remote
    "search_paynow_component_documentation" "x" status500Failure rfl

/-- C5: for every argument mapping that validates, when the remote service
answers with a success status and body `B`, the tool invocation returns a
list of exactly one text content item whose text is `B` verbatim. -/
theorem call_tool_success_body (remote : Remote) (n : String)
    (args : List (String × JValue)) (sa : SearchArgs)
    (status : Nat) (body : String)
    (hv : SearchArgs.validate args = .ok sa)
    (hr : remote (searchRequest (JValue.str sa.query)) =
      .ok { status := status, body := body })
    (hs : 200 ≤ status ∧ status < 300) :
    (call_tool remote n (some args)).1 = .ok [{ type := "text", text := body }] := by
  unfold call_tool
  dsimp only [Option.getD]
  rw [hv]
  dsimp only
  unfold search_paynow_component_documentation
  rw [hr]
  dsimp only
  rw [if_neg (by omega : ¬ (400 ≤ status ∧ status < 600))]

/-- Witness for C5 at the concrete remote of spec §8 example 4. -/
theorem call_tool_success_body_witness :
    (call_tool okRemote "search_paynow_component_documentation"
        (some [("query", JValue.str "refund policy")])).1 =
      .ok [{ type := "text", text := "Refund policy: ..." }] :=
  call_tool_success_body okRemote "search_paynow_component_documentation"
    [("query", JValue.str "refund policy")] { query := "refund policy" }
    200 "Refund policy: ..." rfl rfl (by omega)
